import Mathlib

/-!
Verification of the Reader API MCP server (`src/main.py`).

The development shallowly embeds the three pieces of logic of the program:

* `validate_list_params` — the pure parameter validator (`src/main.py`,
  lines 68–96), returning the query-parameter mapping together with the
  warning diagnostics it emits.  Python's `'c' in s` and `s.endswith(t)`
  on strings are embedded as total operations on the character list of the
  string, wrapped in `Except PyExc` to reflect that the source guards the
  timestamp check with a `try/except (TypeError, ValueError)` handler.
* `list_documents` — the resource handler (`src/main.py`, lines 101–123),
  parameterised by a network oracle `net` that maps the single outbound
  GET request to an outcome (a response, or a transport failure).  The
  handler records the requests it issues, the log lines it emits, and its
  result (`Except UpstreamError Json`, mirroring return vs. re-raise).
* `reader_lifespan_init` — the startup credential check and client
  construction (`src/main.py`, lines 34–51), as a function of the optional
  environment value of `READER_ACCESS_TOKEN`.
-/

/-- Log severity levels used by the program (`logger.debug` / `logger.warning`
/ `logger.error`). -/
inductive LogLevel where
  | debug
  | warning
  | error
deriving DecidableEq, Repr

/-- A single log line: severity and message text. -/
abbrev LogEntry := LogLevel × String

/-- Python exceptions caught by the defensive handler in
`validate_list_params` (`except (TypeError, ValueError)`). -/
inductive PyExc where
  | typeError
  | valueError
deriving DecidableEq, Repr

/-- Embedding of Python's `c in s` for a character `c` and a string `s`:
membership of the character in the string's character sequence.  On string
arguments this operation is total, hence always `.ok`. -/
def py_in_char (c : Char) (s : String) : Except PyExc Bool :=
  .ok (s.data.contains c)

/-- Embedding of Python's `s.endswith(suffix)`: the suffix's character
sequence is a suffix of `s`'s.  Total on string arguments, hence always
`.ok`. -/
def py_endswith (s suffix : String) : Except PyExc Bool :=
  .ok (suffix.data.isSuffixOf s.data)

/-- Embedding of the guarded condition inside the `try` block of
`validate_list_params` (`src/main.py`, line 89):
`'T' in after and (after.endswith('Z') or '+' in after)`, with Python's
left-to-right short-circuit evaluation made explicit. -/
def after_check (after : String) : Except PyExc Bool := do
  let hasT ← py_in_char 'T' after
  if hasT then
    let endsZ ← py_endswith after "Z"
    if endsZ then
      pure true
    else
      py_in_char '+' after
  else
    pure false

/-- The fixed set of accepted locations (`src/main.py`, line 79). -/
def valid_locations : List String :=
  ["new", "later", "shortlist", "archive", "feed"]

/-- Result of the validator: the query-parameter mapping (an insertion-order
association list, as a Python dict) and the warning log lines emitted. -/
structure ValidateResult where
  params : List (String × String)
  logs : List LogEntry
deriving DecidableEq, Repr

/-- Embedding of `validate_list_params` (`src/main.py`, lines 68–96).
The location branch runs first, then the timestamp branch inside its
`try/except`; each branch either inserts its key or logs a warning. -/
def validate_list_params (location after : String) : ValidateResult :=
  let locStep : List (String × String) × List LogEntry :=
    if location ∈ valid_locations then
      ([("location", location)], [])
    else
      ([], [(LogLevel.warning,
             "Invalid location: " ++ location ++ ", parameter will be ignored")])
  let tsStep : List (String × String) × List LogEntry :=
    match after_check after with
    | .ok true =>
      ([("updatedAfter", after)], [])
    | .ok false =>
      ([], [(LogLevel.warning,
             "Invalid ISO 8601 datetime: " ++ after ++ ", parameter will be ignored")])
    | .error _ =>
      ([], [(LogLevel.warning,
             "Invalid datetime format: " ++ after ++ ", parameter will be ignored")])
  { params := locStep.1 ++ tsStep.1
    logs := locStep.2 ++ tsStep.2 }

/-- JSON values, for the response body and the handler's result. -/
inductive Json where
  | null
  | bool (b : Bool)
  | num (n : Int)
  | str (s : String)
  | arr (elems : List Json)
  | obj (fields : List (String × Json))

/-- An outbound HTTP GET request: path and query-parameter mapping
(`ctx.client.get("/list/", params=params)`). -/
structure GetRequest where
  path : String
  params : List (String × String)
deriving DecidableEq, Repr

/-- An HTTP response from the remote service: status code and body.  The
body is `some j` when it is valid JSON parsing to `j`, and `none` when it
is not valid JSON (so `response.json()` raises). -/
structure HttpResponse where
  status : Nat
  body : Option Json

/-- Outcome of an outbound request: a response, or a transport failure
(DNS, connection, timeout) carrying its textual description. -/
inductive Outcome where
  | response (r : HttpResponse)
  | transportError (msg : String)

/-- Error statuses for which `response.raise_for_status()` raises
(httpx: client errors 4xx and server errors 5xx). -/
def is_error_status (s : Nat) : Bool :=
  400 ≤ s && s ≤ 599

/-- The exceptions that can escape the `try` block of `list_documents`:
an HTTP error status, a transport failure, or a JSON decoding failure. -/
inductive UpstreamError where
  | httpStatus (status : Nat)
  | transport (msg : String)
  | jsonDecode
deriving DecidableEq, Repr

/-- Textual description of an upstream error, modelling Python's `str(e)`. -/
def errMsg : UpstreamError → String
  | .httpStatus s => "HTTP status error " ++ toString s
  | .transport m => m
  | .jsonDecode => "JSON decode error"

/-- Observable behaviour of one invocation of the handler: the outbound
requests it issued, the log lines it emitted, and its result — a returned
JSON value, or the error it re-raised. -/
structure HandlerResult where
  requests : List GetRequest
  logs : List LogEntry
  result : Except UpstreamError Json

/-- Classification of an outcome as the handler's `try` block sees it:
`some e` when the outcome makes the block raise `e` (transport failure,
`raise_for_status` on an error status, or invalid JSON body), `none` when
it proceeds to a normal return. -/
def outcome_error : Outcome → Option UpstreamError
  | .transportError msg => some (.transport msg)
  | .response r =>
    if is_error_status r.status then
      some (.httpStatus r.status)
    else
      match r.body with
      | none => some .jsonDecode
      | some _ => none

/-- Embedding of the `list_documents` handler (`src/main.py`, lines
101–123), parameterised by the network oracle `net`.  It logs the debug
line, validates the parameters, issues the single GET request to
`"/list/"`, and either returns the parsed JSON body or logs the error at
error level and re-raises it unchanged. -/
def list_documents (location after : String) (net : GetRequest → Outcome) :
    HandlerResult :=
  let dbg : List LogEntry :=
    [(LogLevel.debug, "list documents @" ++ location ++ " after " ++ after)]
  let v := validate_list_params location after
  let req : GetRequest := { path := "/list/", params := v.params }
  match net req with
  | .transportError msg =>
    { requests := [req]
      logs := dbg ++ v.logs ++
        [(LogLevel.error,
          "Error retrieving document list: " ++ errMsg (.transport msg))]
      result := .error (.transport msg) }
  | .response r =>
    if is_error_status r.status then
      { requests := [req]
        logs := dbg ++ v.logs ++
          [(LogLevel.error,
            "Error retrieving document list: " ++ errMsg (.httpStatus r.status))]
        result := .error (.httpStatus r.status) }
    else
      match r.body with
      | none =>
        { requests := [req]
          logs := dbg ++ v.logs ++
            [(LogLevel.error,
              "Error retrieving document list: " ++ errMsg .jsonDecode)]
          result := .error .jsonDecode }
      | some j =>
        { requests := [req]
          logs := dbg ++ v.logs
          result := .ok j }

/-- Fixed base URL of the Reader API (`src/main.py`, line 23). -/
def READER_API_BASE_URL : String := "https://readwise.io/api/v3"

/-- Configuration of the constructed `httpx.AsyncClient`: base URL,
headers, and timeout in seconds (`src/main.py`, lines 45–49). -/
structure ClientConfig where
  base_url : String
  headers : List (String × String)
  timeout : Nat
deriving DecidableEq, Repr

/-- The `ReaderContext` dataclass (`src/main.py`, lines 27–31): the
credential paired with the constructed client. -/
structure ReaderContext where
  access_token : String
  client : ClientConfig
deriving DecidableEq, Repr

/-- Embedding of the startup phase of `reader_lifespan` (`src/main.py`,
lines 34–51) as a function of the environment value of
`READER_ACCESS_TOKEN` (`none` when unset).  Python's `if not access_token`
treats both `None` and the empty string as falsy and raises `ValueError`;
otherwise the client is constructed with the fixed base URL, the
`Authorization` header, and a 30-second timeout. -/
def reader_lifespan_init (env : Option String) : Except String ReaderContext :=
  match env with
  | none =>
    .error "READER_ACCESS_TOKEN environment variable is not set"
  | some access_token =>
    if access_token = "" then
      .error "READER_ACCESS_TOKEN environment variable is not set"
    else
      .ok { access_token := access_token
            client := { base_url := READER_API_BASE_URL
                        headers := [("Authorization", "Token " ++ access_token)]
                        timeout := 30 } }

/-!
Helper lemmas shared by the claim theorems.
-/

/-- The guarded timestamp condition always evaluates without an exception,
to the boolean conjunction the source writes. -/
theorem after_check_eq (a : String) :
    after_check a =
      .ok (a.data.contains 'T' && ("Z".data.isSuffixOf a.data || a.data.contains '+')) := by
  unfold after_check py_in_char py_endswith
  cases h1 : a.data.contains 'T' <;>
    cases h2 : "Z".data.isSuffixOf a.data <;>
      cases h3 : a.data.contains '+' <;>
        simp [h1, h2, h3, Except.bind, Bind.bind, Pure.pure, Except.pure]

/-- A singleton list is a suffix exactly when it is the last element. -/
theorem suffix_singleton (l : List Char) (z : Char) :
    [z] <:+ l ↔ l.getLast? = some z := by
  constructor
  · rintro ⟨t, rfl⟩
    simp
  · intro h
    cases l using List.reverseRecOn with
    | nil => simp at h
    | append_singleton t x =>
      simp at h
      subst h
      exact ⟨t, rfl⟩

/-- The boolean timestamp condition, restated as the proposition of the
specification: the string contains `T` and (ends with `Z` or contains `+`). -/
theorem after_cond_iff (a : String) :
    (a.data.contains 'T' && ("Z".data.isSuffixOf a.data || a.data.contains '+')) = true ↔
      ('T' ∈ a.data ∧ (a.data.getLast? = some 'Z' ∨ '+' ∈ a.data)) := by
  have hZ : "Z".data = ['Z'] := rfl
  rw [hZ]
  simp [suffix_singleton]

/-- Presence and value of the `updatedAfter` key in the validator's output,
as a function of the timestamp condition alone. -/
theorem lookup_updatedAfter (l a : String) :
    (validate_list_params l a).params.lookup "updatedAfter" =
      if 'T' ∈ a.data ∧ (a.data.getLast? = some 'Z' ∨ '+' ∈ a.data) then some a else none := by
  unfold validate_list_params
  rw [after_check_eq]
  by_cases hp : ('T' ∈ a.data ∧ (a.data.getLast? = some 'Z' ∨ '+' ∈ a.data))
  · rw [if_pos hp]
    rw [(after_cond_iff a).mpr hp]
    by_cases hl : l ∈ valid_locations <;> simp [hl, List.lookup]
  · rw [if_neg hp]
    have hc : (a.data.contains 'T' && ("Z".data.isSuffixOf a.data || a.data.contains '+')) = false := by
      cases hb : (a.data.contains 'T' && ("Z".data.isSuffixOf a.data || a.data.contains '+'))
      · rfl
      · exact absurd ((after_cond_iff a).mp hb) hp
    rw [hc]
    by_cases hl : l ∈ valid_locations <;> simp [hl, List.lookup]

/-- Presence and value of the `location` key in the validator's output, as a
function of the location condition alone. -/
theorem lookup_location (l a : String) :
    (validate_list_params l a).params.lookup "location" =
      if l ∈ valid_locations then some l else none := by
  unfold validate_list_params
  rw [after_check_eq]
  cases hc : (a.data.contains 'T' && ("Z".data.isSuffixOf a.data || a.data.contains '+')) <;>
    by_cases hl : l ∈ valid_locations <;> simp [hl, List.lookup]

/-!
Claim theorems.
-/

/-- C1: for every string `after`, the validator's output mapping contains
the key `updatedAfter` exactly when `after` contains the character `T`
and (ends with the character `Z` or contains the character `+`); when the
key is present its value equals the input `after` exactly, with no
normalization. -/
theorem validate_updatedAfter_spec (location after : String) :
    (validate_list_params location after).params.lookup "updatedAfter" =
      if 'T' ∈ after.data ∧ (after.data.getLast? = some 'Z' ∨ '+' ∈ after.data) then
        some after
      else
        none :=
  lookup_updatedAfter location after

/-- C2: for every string `location`, the validator's output mapping
contains the key `location` exactly when the input is one of the five
strings of `valid_locations` (case-sensitive exact match); when present
its value equals the input exactly, and otherwise the key is omitted. -/
theorem validate_location_spec (location after : String) :
    (validate_list_params location after).params.lookup "location" =
      if location ∈ valid_locations then some location else none :=
  lookup_location location after

/-- C8: the validator is a pure, deterministic function of its two string
arguments: two invocations on equal inputs yield identical results. -/
theorem validate_deterministic (l₁ a₁ l₂ a₂ : String)
    (hl : l₁ = l₂) (ha : a₁ = a₂) :
    validate_list_params l₁ a₁ = validate_list_params l₂ a₂ := by
  subst hl
  subst ha
  rfl

/-- Witness for C8 at concrete inputs. -/
theorem validate_deterministic_witness :
    validate_list_params "later" "2024-01-01T00:00:00Z" =
      validate_list_params "later" "2024-01-01T00:00:00Z" :=
  validate_deterministic "later" "2024-01-01T00:00:00Z" "later" "2024-01-01T00:00:00Z"
    rfl rfl

/-- C9: the validator's output mapping has at most two entries, and every
key in it is `location` or `updatedAfter`. -/
theorem validate_params_bounded (location after : String) :
    (validate_list_params location after).params.length ≤ 2 ∧
      ∀ p ∈ (validate_list_params location after).params,
        p.1 = "location" ∨ p.1 = "updatedAfter" := by
  unfold validate_list_params
  rw [after_check_eq]
  cases hc : (after.data.contains 'T' && ("Z".data.isSuffixOf after.data || after.data.contains '+')) <;>
    by_cases hl : location ∈ valid_locations <;>
      simp [hl]

/-- Witness for C9 at concrete inputs. -/
theorem validate_params_bounded_witness :
    (validate_list_params "new" "2024-01-01T00:00:00Z").params.length ≤ 2 ∧
      (("location", "new").1 = "location" ∨ ("location", "new").1 = "updatedAfter") :=
  ⟨(validate_params_bounded "new" "2024-01-01T00:00:00Z").1,
   (validate_params_bounded "new" "2024-01-01T00:00:00Z").2 ("location", "new") (by decide)⟩

/-- C10: the two parameters are validated independently: the presence and
value of the `location` key do not depend on `after`, and the presence and
value of the `updatedAfter` key do not depend on `location`. -/
theorem validate_independent (l l' a a' : String) :
    (validate_list_params l a).params.lookup "location" =
        (validate_list_params l a').params.lookup "location" ∧
      (validate_list_params l a).params.lookup "updatedAfter" =
        (validate_list_params l' a).params.lookup "updatedAfter" := by
  constructor
  · rw [lookup_location l a, lookup_location l a']
  · rw [lookup_updatedAfter l a, lookup_updatedAfter l' a]

/-- Two concatenations differ when their leading literals differ at a
position inside both literals (position 8 here). -/
theorem msg_ne (p q x y s t : String)
    (hp : 8 < p.data.length) (hq : 8 < q.data.length)
    (hne : p.data[8]? ≠ q.data[8]?) :
    p ++ x ++ s ≠ q ++ y ++ t := by
  intro h
  apply hne
  have h8 := congrArg (fun w : String => w.data[8]?) h
  simp only [String.data_append] at h8
  rw [List.append_assoc, List.append_assoc] at h8
  rw [List.getElem?_append_left hp, List.getElem?_append_left hq] at h8
  exact h8

/-- C3: the validator never raises: the guarded timestamp condition always
evaluates to an `.ok` boolean (never a `TypeError`/`ValueError`), and the
warning of the defensive `except` handler is never emitted. -/
theorem validate_never_raises (location after : String) :
    (∃ b, after_check after = Except.ok b) ∧
      (LogLevel.warning,
          "Invalid datetime format: " ++ after ++ ", parameter will be ignored") ∉
        (validate_list_params location after).logs := by
  refine ⟨⟨_, after_check_eq after⟩, ?_⟩
  unfold validate_list_params
  rw [after_check_eq]
  cases hc : (after.data.contains 'T' && ("Z".data.isSuffixOf after.data || after.data.contains '+')) <;>
    by_cases hl : location ∈ valid_locations <;>
      simp [hl] <;>
        first
        | exact msg_ne _ _ _ _ _ _ (by decide) (by decide) (by decide)
        | exact ⟨msg_ne _ _ _ _ _ _ (by decide) (by decide) (by decide),
                 msg_ne _ _ _ _ _ _ (by decide) (by decide) (by decide)⟩

/-- Witness for C3 at concrete inputs. -/
theorem validate_never_raises_witness :
    (∃ b, after_check "not-a-date" = Except.ok b) ∧
      (LogLevel.warning,
          "Invalid datetime format: " ++ "not-a-date" ++ ", parameter will be ignored") ∉
        (validate_list_params "trash" "not-a-date").logs :=
  validate_never_raises "trash" "not-a-date"

/-- C4: for every pair of inputs and every network behaviour, the handler
issues exactly one GET request, to the fixed path `/list/`, whose query
mapping is the validator's output for those inputs. -/
theorem list_documents_single_request (location after : String)
    (net : GetRequest → Outcome) :
    (list_documents location after net).requests =
      [{ path := "/list/", params := (validate_list_params location after).params }] := by
  unfold list_documents
  cases hnet : net { path := "/list/", params := (validate_list_params location after).params } with
  | transportError msg => simp [hnet]
  | response r =>
    cases hs : is_error_status r.status
    · cases hb : r.body <;> simp [hnet, hs, hb]
    · simp [hnet, hs]

/-- C5: whenever the outcome of the outbound request is a failure (HTTP
error status, transport failure, or a body that is not valid JSON), the
handler logs the failure at error level with the error's textual
description and re-raises the underlying error unchanged, returning no
result value. -/
theorem list_documents_error_spec (location after : String)
    (net : GetRequest → Outcome) (e : UpstreamError)
    (h : outcome_error
        (net { path := "/list/", params := (validate_list_params location after).params }) =
      some e) :
    (list_documents location after net).result = .error e ∧
      (LogLevel.error, "Error retrieving document list: " ++ errMsg e) ∈
        (list_documents location after net).logs := by
  unfold list_documents
  cases hnet : net { path := "/list/", params := (validate_list_params location after).params } with
  | transportError msg =>
    rw [hnet] at h
    simp [outcome_error] at h
    subst h
    simp [hnet]
  | response r =>
    rw [hnet] at h
    cases hs : is_error_status r.status with
    | false =>
      cases hb : r.body with
      | none =>
        simp [outcome_error, hs, hb] at h
        subst h
        simp [hnet, hs, hb]
      | some j =>
        simp [outcome_error, hs, hb] at h
    | true =>
      simp [outcome_error, hs] at h
      subst h
      simp [hnet, hs]

/-- Witness for C5: an HTTP 401 response is re-raised and logged. -/
theorem list_documents_error_spec_witness :
    (list_documents "later" "2024-01-01T00:00:00Z"
          (fun _ => Outcome.response { status := 401, body := some Json.null })).result =
        .error (.httpStatus 401) ∧
      (LogLevel.error, "Error retrieving document list: " ++ errMsg (.httpStatus 401)) ∈
        (list_documents "later" "2024-01-01T00:00:00Z"
          (fun _ => Outcome.response { status := 401, body := some Json.null })).logs :=
  list_documents_error_spec "later" "2024-01-01T00:00:00Z"
    (fun _ => Outcome.response { status := 401, body := some Json.null })
    (.httpStatus 401) (by decide)

/-- C7: on a non-error HTTP status with a valid JSON body, the handler
returns the parsed JSON value unmodified. -/
theorem list_documents_success_spec (location after : String)
    (net : GetRequest → Outcome) (r : HttpResponse) (j : Json)
    (hnet : net { path := "/list/", params := (validate_list_params location after).params } =
      .response r)
    (hs : is_error_status r.status = false)
    (hb : r.body = some j) :
    (list_documents location after net).result = .ok j := by
  unfold list_documents
  simp [hnet, hs, hb]

/-- Witness for C7: a 200 response whose body is the documented example
structure is returned unchanged. -/
theorem list_documents_success_spec_witness :
    (list_documents "later" "2024-01-01T00:00:00Z"
        (fun _ => Outcome.response
          { status := 200
            body := some (Json.obj
              [("count", Json.num 2), ("results", Json.arr []),
               ("nextPageCursor", Json.null)]) })).result =
      .ok (Json.obj
        [("count", Json.num 2), ("results", Json.arr []),
         ("nextPageCursor", Json.null)]) :=
  list_documents_success_spec "later" "2024-01-01T00:00:00Z"
    (fun _ => Outcome.response
      { status := 200
        body := some (Json.obj
          [("count", Json.num 2), ("results", Json.arr []),
           ("nextPageCursor", Json.null)]) })
    { status := 200
      body := some (Json.obj
        [("count", Json.num 2), ("results", Json.arr []),
         ("nextPageCursor", Json.null)]) }
    (Json.obj
      [("count", Json.num 2), ("results", Json.arr []),
       ("nextPageCursor", Json.null)])
    rfl (by decide) rfl

/-- C6: startup fails with the fatal configuration error when the
credential environment variable is unset or empty; otherwise the client is
constructed with the fixed base URL, the `Authorization: Token` header and
a 30-second timeout. -/
theorem reader_lifespan_init_spec (env : Option String) :
    ((env = none ∨ env = some "") →
        reader_lifespan_init env =
          .error "READER_ACCESS_TOKEN environment variable is not set") ∧
      (∀ t, env = some t → t ≠ "" →
        reader_lifespan_init env =
          .ok { access_token := t
                client := { base_url := "https://readwise.io/api/v3"
                            headers := [("Authorization", "Token " ++ t)]
                            timeout := 30 } }) := by
  constructor
  · rintro (rfl | rfl) <;> rfl
  · rintro t rfl ht
    simp [reader_lifespan_init, READER_API_BASE_URL, ht]

/-- Witness for C6: an unset variable is fatal, and a concrete token
yields the documented client configuration. -/
theorem reader_lifespan_init_spec_witness :
    reader_lifespan_init none =
        .error "READER_ACCESS_TOKEN environment variable is not set" ∧
      reader_lifespan_init (some "tok") =
        .ok { access_token := "tok"
              client := { base_url := "https://readwise.io/api/v3"
                          headers := [("Authorization", "Token " ++ "tok")]
                          timeout := 30 } } :=
  ⟨(reader_lifespan_init_spec none).1 (Or.inl rfl),
   (reader_lifespan_init_spec (some "tok")).2 "tok" rfl (by decide)⟩
